import Mathlib

/-!
Shallow embedding of `cpremote/cpremote.py`, a command-line client for the
CircuitPython web workflow.  Each operation of the tool builds exactly one
HTTP request and dispatches on the numeric status code of the response to
print a human-readable message.  The embedding models each Python function
as: a pure request builder (the arguments of the single `requests.request`
call) and a pure response handler (the `if`/`elif` chain on
`response.status_code`, producing the list of side effects).  Library
functions external to the repository (`json.loads`, `response.json()`,
`time.localtime`, `time.strftime`, number rendering of f-strings) are
abstracted as parameters collected in `PyLib`; `json.dumps(obj, indent=4)`
is modelled concretely by `json_dumps_indent4`.
-/

namespace Cpremote

/-- An HTTP request as issued by `requests.request` in `cpremote.py`:
method, full URL, basic-auth credentials (username, password), extra
headers, optional body data, and optional timeout in seconds. -/
structure Request where
  method : String
  url : String
  auth : Option (String × String)
  headers : List (String × String)
  body : Option String
  timeout : Option Nat
deriving Repr, DecidableEq

/-- An HTTP response: numeric status code and body text. -/
structure Response where
  status_code : Nat
  text : String
deriving Repr, DecidableEq

/-- A network-level failure raised by `requests.request` (no response
obtained). -/
inductive TransportError where
  | connectionRefused
  | timedOut
  | dnsFailure
deriving Repr, DecidableEq

/-- An exception escaping an operation: either a transport failure of
`requests.request`, or a `json` decode error from `json.loads` /
`response.json()`.  The Python code installs no handler for either, so
they propagate out of the operation functions. -/
inductive RunError where
  | transport (e : TransportError)
  | jsonDecode
deriving Repr, DecidableEq

/-- An observable side effect of an operation: a `print` to standard
output, a local file write (`get` with a destination), or opening the
web browser (`repl`). -/
inductive Effect where
  | print (s : String)
  | writeFile (path : String) (contents : String)
  | openBrowser (url : String)
deriving Repr, DecidableEq

/-- Model of a Python JSON value as handled by the `json` module
(numbers restricted to integers, which is all the device API uses). -/
inductive Json where
  | null
  | bool (b : Bool)
  | int (n : Int)
  | str (s : String)
  | arr (xs : List Json)
  | obj (fields : List (String × Json))
deriving Inhabited

/-- Model of a `time.struct_time` value as returned by `time.localtime`;
the code inspects only `tm_year`, the remaining fields are carried for
`time.strftime`. -/
structure Tm where
  tm_year : Int
  tm_mon : Nat
  tm_mday : Nat
  tm_hour : Nat
  tm_min : Nat
  tm_sec : Nat
deriving Repr, DecidableEq

/-- One entry of the JSON directory listing returned by the device for
`ls`: fields `name`, `directory`, `file_size`, `modified_ns`. -/
structure FileEntry where
  name : String
  directory : Bool
  file_size : Int
  modified_ns : Int
deriving Repr, DecidableEq

/-- The JSON payload returned by the device for `ls`:
`files`, `free`, `total`, `block_size`, `writable`. -/
structure DirListing where
  files : List FileEntry
  free : Int
  total : Int
  block_size : Int
  writable : Bool
deriving Repr, DecidableEq

/-- A Python number as it appears in the `ls` summary f-string: an `int`
stays an `int` under `*`, while `/` produces a `float` (modelled
exactly as a rational). -/
inductive PyNum where
  | int (n : Int)
  | float (q : ℚ)
deriving Repr, DecidableEq

/-- Abstraction of the Python library functions used by `cpremote.py`
but external to the repository: `json.loads`, `response.json()` for the
listing payload, `time.localtime` (with and without argument) and
`time.strftime`, and the f-string rendering of an `int`-or-`float`
number.  `loads` and `parseListing` return `none` where the Python
function would raise. -/
structure PyLib where
  loads : String → Option Json
  parseListing : String → Option DirListing
  now : Tm
  localtime : ℚ → Tm
  strftime : String → Tm → String
  renderNum : PyNum → String

/-- Model of Python's `str.endswith` (character-based suffix test). -/
def pyEndswith (s suffix : String) : Bool :=
  suffix.data.isSuffixOf s.data

/-- The trailing-slash normalisation performed by `ls`, `mkdir` and
`rmdir`: `if not directory.endswith('/'): directory += '/'`. -/
def dirSlash (directory : String) : String :=
  if pyEndswith directory "/" then directory else directory ++ "/"

/-- The request issued by `get`: GET `host + '/fs/' + src` with basic
auth `('', password)` and no timeout. -/
def get_request (host password src : String) : Request :=
  { method := "GET", url := host ++ "/fs/" ++ src,
    auth := some ("", password), headers := [], body := none, timeout := none }

/-- The request issued by `info` (commands `devices`, `diskinfo`,
`version`): GET `host + '/cp/' + path + '.json'`, unauthenticated, no
timeout. -/
def info_request (host path : String) : Request :=
  { method := "GET", url := host ++ "/cp/" ++ path ++ ".json",
    auth := none, headers := [], body := none, timeout := none }

/-- The request issued by `ls`: after appending a trailing slash when
missing, GET `host + '/fs/' + directory` with basic auth, an
`Accept: application/json` header, and `timeout=5`. -/
def ls_request (host password directory : String) : Request :=
  { method := "GET", url := host ++ "/fs/" ++ dirSlash directory,
    auth := some ("", password), headers := [("Accept", "application/json")],
    body := none, timeout := some 5 }

/-- The request issued by `mkdir`: after appending a trailing slash when
missing, PUT `host + '/fs/' + directory` with basic auth, no timeout. -/
def mkdir_request (host password directory : String) : Request :=
  { method := "PUT", url := host ++ "/fs/" ++ dirSlash directory,
    auth := some ("", password), headers := [], body := none, timeout := none }

/-- The request issued by `mv`: MOVE `host + '/fs/' + src` with basic
auth and header `X-Destination: '/fs/' + dst`, no timeout.  Note the
source applies no trailing-slash normalisation to either argument. -/
def mv_request (host password src dst : String) : Request :=
  { method := "MOVE", url := host ++ "/fs/" ++ src,
    auth := some ("", password), headers := [("X-Destination", "/fs/" ++ dst)],
    body := none, timeout := none }

/-- The request issued by `put`: `if dst is None: dst = src`, then PUT
`host + '/fs/' + dst` with basic auth and the local file's contents as
body, no timeout. -/
def put_request (host password src : String) (dst : Option String)
    (data : String) : Request :=
  let dst := match dst with
    | none => src
    | some d => d
  { method := "PUT", url := host ++ "/fs/" ++ dst,
    auth := some ("", password), headers := [], body := some data,
    timeout := none }

/-- The request issued by `rm`: DELETE `host + '/fs/' + file` with basic
auth, no timeout (no trailing-slash normalisation). -/
def rm_request (host password file : String) : Request :=
  { method := "DELETE", url := host ++ "/fs/" ++ file,
    auth := some ("", password), headers := [], body := none, timeout := none }

/-- The request issued by `rmdir`: after appending a trailing slash when
missing, DELETE `host + '/fs/' + directory` with basic auth, no
timeout. -/
def rmdir_request (host password directory : String) : Request :=
  { method := "DELETE", url := host ++ "/fs/" ++ dirSlash directory,
    auth := some ("", password), headers := [], body := none, timeout := none }

/-- Hexadecimal digit used by the `\uXXXX` escapes of `json.dumps`. -/
def hexDigit (n : Nat) : Char :=
  if n < 10 then Char.ofNat (48 + n) else Char.ofNat (87 + n)

/-- Four-digit lowercase hexadecimal rendering. -/
def hex4 (n : Nat) : String :=
  String.mk [hexDigit (n / 4096 % 16), hexDigit (n / 256 % 16),
             hexDigit (n / 16 % 16), hexDigit (n % 16)]

/-- Model of the `\uXXXX` escape of `json.dumps` with the default
`ensure_ascii=True` (surrogate pair above the basic plane). -/
def uEscape (n : Nat) : String :=
  if n < 65536 then "\\u" ++ hex4 n
  else
    "\\u" ++ hex4 (55296 + (n - 65536) / 1024) ++
      "\\u" ++ hex4 (56320 + (n - 65536) % 1024)

/-- Model of the per-character escaping of `json.dumps` (default
`ensure_ascii=True`). -/
def jsonEscapeChar (c : Char) : String :=
  if c = '"' then "\\\""
  else if c = '\\' then "\\\\"
  else if c = '\n' then "\\n"
  else if c = '\t' then "\\t"
  else if c = '\r' then "\\r"
  else if c = Char.ofNat 8 then "\\b"
  else if c = Char.ofNat 12 then "\\f"
  else if c.toNat < 32 ∨ 126 < c.toNat then uEscape c.toNat
  else String.singleton c

/-- Model of the string serialisation of `json.dumps`. -/
def jsonEscapeString (s : String) : String :=
  "\"" ++ String.join (s.data.map jsonEscapeChar) ++ "\""

/-- The indentation prefix written by `json.dumps(obj, indent=4)` at a
given nesting depth. -/
def jsonIndent (depth : Nat) : String :=
  String.mk (List.replicate (4 * depth) ' ')

mutual

/-- Model of Python's `json.dumps(obj, indent=4)` at nesting depth
`depth`. -/
def json_dumps_at : Nat → Json → String
  | _, .null => "null"
  | _, .bool b => if b then "true" else "false"
  | _, .int n => toString n
  | _, .str s => jsonEscapeString s
  | _, .arr [] => "[]"
  | depth, .arr (x :: xs) =>
      "[\n" ++ jsonIndent (depth + 1) ++ json_dumps_items (depth + 1) x xs
        ++ "\n" ++ jsonIndent depth ++ "]"
  | _, .obj [] => "\x7b\x7d"
  | depth, .obj ((key, val) :: fs) =>
      "\x7b\n" ++ jsonIndent (depth + 1) ++
        json_dumps_fields (depth + 1) key val fs
        ++ "\n" ++ jsonIndent depth ++ "\x7d"
termination_by _ j => sizeOf j
decreasing_by all_goals simp_wf; all_goals omega

/-- Comma-and-newline separated array items of `json.dumps(indent=4)`. -/
def json_dumps_items (depth : Nat) (x : Json) : List Json → String
  | [] => json_dumps_at depth x
  | y :: ys => json_dumps_at depth x ++ ",\n" ++ jsonIndent depth ++
      json_dumps_items depth y ys
termination_by xs => sizeOf x + sizeOf xs
decreasing_by all_goals simp_wf; all_goals omega

/-- Comma-and-newline separated object members of `json.dumps(indent=4)`,
keys rendered with `': '` as the key separator. -/
def json_dumps_fields (depth : Nat) (key : String) (val : Json) :
    List (String × Json) → String
  | [] => jsonEscapeString key ++ ": " ++ json_dumps_at depth val
  | (k, v) :: gs => jsonEscapeString key ++ ": " ++ json_dumps_at depth val ++
      ",\n" ++ jsonIndent depth ++ json_dumps_fields depth k v gs
termination_by fs => sizeOf val + sizeOf fs
decreasing_by all_goals simp_wf; all_goals omega

end

/-- Model of `json.dumps(obj, indent=4)` as used by `info`. -/
def json_dumps_indent4 (obj : Json) : String :=
  json_dumps_at 0 obj

/-- The f-string rendering of a Python `bool`. -/
def pyBoolStr (b : Bool) : String := if b then "True" else "False"

/-- The response dispatch of `get`: 200 prints the body (no `dst`) or
writes it to `dst` and reports; 401/403/404 print the fixed messages;
any other code prints `Unknown {code}: {body}`. -/
def get_handle (dst : Option String) (response : Response) : List Effect :=
  if response.status_code = 200 then
    match dst with
    | none => [.print response.text]
    | some d => [.writeFile d response.text,
                 .print "File exists and file returned"]
  else if response.status_code = 401 then [.print "Incorrect password"]
  else if response.status_code = 403 then
    [.print "No CIRCUITPY_WEB_API_PASSWORD set"]
  else if response.status_code = 404 then [.print "Missing file"]
  else [.print ("Unknown " ++ toString response.status_code ++ ": " ++
    response.text)]

/-- The response handling of `info`: parse the body with `json.loads`
(raising on failure, regardless of the status code) and print it
re-serialised by `json.dumps(obj, indent=4)`.  The status code is never
inspected. -/
def info_handle (lib : PyLib) (response : Response) :
    Except RunError (List Effect) :=
  match lib.loads response.text with
  | none => .error .jsonDecode
  | some obj => .ok [.print (json_dumps_indent4 obj)]

/-- The modified-time column of one `ls` entry: local time of
`modified_ns / 1000000000`, formatted `"%b %d %H:%M"` when its year is
the current local year and `"%b %d  %Y"` otherwise. -/
def entry_modified (lib : PyLib) (modified_ns : Int) : String :=
  let current_time := lib.now
  let t := lib.localtime ((modified_ns : ℚ) / 1000000000)
  if t.tm_year = current_time.tm_year then lib.strftime "%b %d %H:%M" t
  else lib.strftime "%b %d  %Y" t

/-- One line of the `ls` listing:
`{file_size}\t{modified}\t{name}{/ if directory}`, size blank for
directories. -/
def entry_line (lib : PyLib) (file : FileEntry) : String :=
  let directory := if file.directory then "/" else ""
  let modified_time := entry_modified lib file.modified_ns
  let file_size := if directory = "" then toString file.file_size else ""
  file_size ++ "\t" ++ modified_time ++ "\t" ++ file.name ++ directory

/-- The units conversion of the `ls` summary: `'b'` multiplies the raw
block counts by `block_size` (integer arithmetic stays `int`); `'kb'`
multiplies by `block_size` then divides by `1024` with Python's true
division, producing a `float`; any other setting (including the unset
`None`) leaves the raw block counts unconverted. -/
def ls_convert (units : Option String) (free total block_size : Int) :
    PyNum × PyNum :=
  if units = some "b" then
    (.int (free * block_size), .int (total * block_size))
  else if units = some "kb" then
    (.float (((free * block_size : Int) : ℚ) / 1024),
     .float (((total * block_size : Int) : ℚ) / 1024))
  else
    (.int free, .int total)

/-- The `ls` summary line: free/total converted per the configured
units, then the block size and the writable flag verbatim. -/
def summary_line (lib : PyLib) (units : Option String) (data : DirListing) :
    String :=
  let p := ls_convert units data.free data.total data.block_size
  let unitsStr := match units with
    | none => "None"
    | some u => u
  "free: " ++ lib.renderNum p.1 ++ " " ++ unitsStr ++
    ", total: " ++ lib.renderNum p.2 ++ " " ++ unitsStr ++
    ", block size: " ++ toString data.block_size ++
    ", writable: " ++ pyBoolStr data.writable

/-- The 200 branch of `ls`: header, column titles, one line per entry in
server order, then the summary line. -/
def ls_success (lib : PyLib) (host : String) (units : Option String)
    (directory : String) (data : DirListing) : List Effect :=
  let directory := if directory = "" then "/" else directory
  [Effect.print ("Host " ++ host ++ ", directory " ++ directory),
   Effect.print "Size\tModified\tName"]
    ++ data.files.map (fun file => Effect.print (entry_line lib file))
    ++ [Effect.print (summary_line lib units data)]

/-- The response dispatch of `ls`: 200 parses the JSON payload (raising
on decode failure) and formats the listing; 401/403/404 print the fixed
messages; any other code prints `Unknown {code}: {body}`.  The
`directory` argument is the trailing-slash-normalised one. -/
def ls_handle (lib : PyLib) (host : String) (units : Option String)
    (directory : String) (response : Response) :
    Except RunError (List Effect) :=
  if response.status_code = 200 then
    match lib.parseListing response.text with
    | none => .error .jsonDecode
    | some data => .ok (ls_success lib host units directory data)
  else if response.status_code = 401 then .ok [.print "Incorrect password"]
  else if response.status_code = 403 then
    .ok [.print "No CIRCUITPY_WEB_API_PASSWORD set"]
  else if response.status_code = 404 then .ok [.print "Missing directory"]
  else .ok [.print ("Unknown " ++ toString response.status_code ++ ": " ++
    response.text)]

/-- The response dispatch of `mkdir`. -/
def mkdir_handle (response : Response) : List Effect :=
  if response.status_code = 201 then [.print "Directory created"]
  else if response.status_code = 204 then [.print "Directory or file exists"]
  else if response.status_code = 401 then [.print "Incorrect password"]
  else if response.status_code = 403 then
    [.print "No CIRCUITPY_WEB_API_PASSWORD set"]
  else if response.status_code = 404 then [.print "Missing parent directory"]
  else if response.status_code = 409 then
    [.print "USB is active and preventing file system modification"]
  else if response.status_code = 500 then [.print "Other, unhandled error"]
  else [.print ("Unknown " ++ toString response.status_code ++ ": " ++
    response.text)]

/-- The response dispatch of `mv`. -/
def mv_handle (response : Response) : List Effect :=
  if response.status_code = 201 then [.print "File/directory renamed"]
  else if response.status_code = 401 then [.print "Incorrect password"]
  else if response.status_code = 403 then
    [.print "No CIRCUITPY_WEB_API_PASSWORD set"]
  else if response.status_code = 404 then
    [.print "Source file/directory not found or destination path is missing"]
  else if response.status_code = 409 then
    [.print "USB is active and preventing file system modification"]
  else if response.status_code = 412 then
    [.print "Precondition Failed - The destination path is already in use"]
  else [.print ("Unknown " ++ toString response.status_code ++ ": " ++
    response.text)]

/-- The response dispatch of `put`. -/
def put_handle (response : Response) : List Effect :=
  if response.status_code = 201 then [.print "File created and saved"]
  else if response.status_code = 204 then [.print "File existed and overwritten"]
  else if response.status_code = 401 then [.print "Incorrect password"]
  else if response.status_code = 403 then
    [.print "No CIRCUITPY_WEB_API_PASSWORD set"]
  else if response.status_code = 404 then [.print "Missing parent directory"]
  else if response.status_code = 409 then
    [.print "USB is active and preventing file system modification"]
  else if response.status_code = 413 then
    [.print "Expect header not sent and file is too large"]
  else if response.status_code = 417 then
    [.print "Expect header sent and file is too large"]
  else if response.status_code = 500 then [.print "Other, unhandled error"]
  else [.print ("Unknown " ++ toString response.status_code ++ ": " ++
    response.text)]

/-- The response dispatch of `rm`. -/
def rm_handle (response : Response) : List Effect :=
  if response.status_code = 204 then [.print "File existed and deleted"]
  else if response.status_code = 401 then [.print "Incorrect password"]
  else if response.status_code = 403 then
    [.print "No CIRCUITPY_WEB_API_PASSWORD set"]
  else if response.status_code = 404 then [.print "File not found"]
  else if response.status_code = 409 then
    [.print "USB is active and preventing file system modification"]
  else [.print ("Unknown " ++ toString response.status_code ++ ": " ++
    response.text)]

/-- The response dispatch of `rmdir`. -/
def rmdir_handle (response : Response) : List Effect :=
  if response.status_code = 204 then
    [.print "Directory and its contents deleted"]
  else if response.status_code = 401 then [.print "Incorrect password"]
  else if response.status_code = 403 then
    [.print "No CIRCUITPY_WEB_API_PASSWORD set"]
  else if response.status_code = 404 then [.print "No directory"]
  else if response.status_code = 409 then
    [.print "USB is active and preventing file system modification"]
  else [.print ("Unknown " ++ toString response.status_code ++ ": " ++
    response.text)]

/-- The CLI subcommands dispatched by `main`. -/
inductive Command where
  | devices
  | diskinfo
  | get (src : String) (dst : Option String)
  | ls (directory : String)
  | mkdir (directory : String)
  | mv (src : String) (dst : String)
  | put (src : String) (dst : Option String)
  | repl
  | rm (file : String)
  | rmdir (directory : String)
  | version
deriving Repr, DecidableEq

/-- Whether a command is the listing command (the only one that sets a
request timeout). -/
def Command.isLs : Command → Bool
  | .ls _ => true
  | _ => false

/-- The HTTP requests issued by one invocation of a command, following
the dispatch at the end of `main`.  `localData` is the content of the
local source file read by `put`.  `repl` opens a browser and issues no
HTTP request. -/
def command_requests (host password : String) (localData : String) :
    Command → List Request
  | .devices => [info_request host "devices"]
  | .diskinfo => [info_request host "diskinfo"]
  | .get src _ => [get_request host password src]
  | .ls directory => [ls_request host password directory]
  | .mkdir directory => [mkdir_request host password directory]
  | .mv src dst => [mv_request host password src dst]
  | .put src dst => [put_request host password src dst localData]
  | .repl => []
  | .rm file => [rm_request host password file]
  | .rmdir directory => [rmdir_request host password directory]
  | .version => [info_request host "version"]

/-- A transport: the behaviour of `requests.request`, either a response
or a raised network-level error. -/
def Transport : Type := Request → Except TransportError Response

/-- One invocation of `get`: issue the request, propagate a transport
error (the source installs no handler), otherwise dispatch on the
status code. -/
def get_run (transport : Transport) (host password src : String)
    (dst : Option String) : Except RunError (List Effect) :=
  match transport (get_request host password src) with
  | .error e => .error (.transport e)
  | .ok response => .ok (get_handle dst response)

/-- One invocation of `info`: issue the request, propagate a transport
error, otherwise parse and pretty-print the body (no status dispatch). -/
def info_run (lib : PyLib) (transport : Transport) (host path : String) :
    Except RunError (List Effect) :=
  match transport (info_request host path) with
  | .error e => .error (.transport e)
  | .ok response => info_handle lib response

/-- One invocation of `ls`: normalise the trailing slash, issue the
request, propagate a transport error, otherwise dispatch on the status
code. -/
def ls_run (lib : PyLib) (transport : Transport)
    (host password directory : String) (units : Option String) :
    Except RunError (List Effect) :=
  match transport (ls_request host password directory) with
  | .error e => .error (.transport e)
  | .ok response =>
      ls_handle lib host units (dirSlash directory) response

/-- One invocation of `mkdir`. -/
def mkdir_run (transport : Transport) (host password directory : String) :
    Except RunError (List Effect) :=
  match transport (mkdir_request host password directory) with
  | .error e => .error (.transport e)
  | .ok response => .ok (mkdir_handle response)

/-- One invocation of `mv`. -/
def mv_run (transport : Transport) (host password src dst : String) :
    Except RunError (List Effect) :=
  match transport (mv_request host password src dst) with
  | .error e => .error (.transport e)
  | .ok response => .ok (mv_handle response)

/-- One invocation of `put`; `localData` is the content of the local
source file. -/
def put_run (transport : Transport) (host password src : String)
    (dst : Option String) (localData : String) :
    Except RunError (List Effect) :=
  match transport (put_request host password src dst localData) with
  | .error e => .error (.transport e)
  | .ok response => .ok (put_handle response)

/-- One invocation of `rm`. -/
def rm_run (transport : Transport) (host password file : String) :
    Except RunError (List Effect) :=
  match transport (rm_request host password file) with
  | .error e => .error (.transport e)
  | .ok response => .ok (rm_handle response)

/-- One invocation of `rmdir`. -/
def rmdir_run (transport : Transport) (host password directory : String) :
    Except RunError (List Effect) :=
  match transport (rmdir_request host password directory) with
  | .error e => .error (.transport e)
  | .ok response => .ok (rmdir_handle response)

/-- One invocation of a command (the dispatch at the end of `main`),
given the configured host, password and units, the local file content
used by `put`, and a transport. -/
def command_run (lib : PyLib) (transport : Transport)
    (host password : String) (units : Option String) (localData : String) :
    Command → Except RunError (List Effect)
  | .devices => info_run lib transport host "devices"
  | .diskinfo => info_run lib transport host "diskinfo"
  | .get src dst => get_run transport host password src dst
  | .ls directory => ls_run lib transport host password directory units
  | .mkdir directory => mkdir_run transport host password directory
  | .mv src dst => mv_run transport host password src dst
  | .put src dst => put_run transport host password src dst localData
  | .repl => .ok [.openBrowser (host ++ "/cp/serial/")]
  | .rm file => rm_run transport host password file
  | .rmdir directory => rmdir_run transport host password directory
  | .version => info_run lib transport host "version"

/-- The environment-derived configuration read at the start of `main`
(`os.getenv` after loading the optional dotenv file): each value is
absent when the variable is unset. -/
structure EnvConfig where
  host : Option String
  password : Option String
  units : Option String
deriving Repr, DecidableEq

/-- The parsed CLI arguments: the three optional global flags and the
chosen subcommand (absent when no subcommand was given, in which case
`main` prints the help text). -/
structure CliArgs where
  host : Option String
  password : Option String
  units : Option String
  command : Option Command
deriving Repr, DecidableEq

/-- The flag-override step of `main`: each of `host`, `password`,
`units` is taken from the corresponding flag when it was given,
otherwise from the environment (`if not args.x is None: value = args.x`,
so the flag is the last writer). -/
def applyOverrides (env : EnvConfig) (args : CliArgs) : EnvConfig :=
  { host := match args.host with
      | some h => some h
      | none => env.host,
    password := match args.password with
      | some p => some p
      | none => env.password,
    units := match args.units with
      | some u => some u
      | none => env.units }

/-- The outcome of `main` up to the command dispatch: either an early
return with a configuration error message (no network call), or the
dispatch with the resolved host, password, units and subcommand. -/
inductive MainStep where
  | configError (msg : String)
  | dispatch (host : String) (password : String) (units : Option String)
      (command : Option Command)
deriving Repr, DecidableEq

/-- The configuration check of `main` after flag overrides: a missing
host, then a missing password, each print an error message and return
before any network call. -/
def main_dispatch (env : EnvConfig) (args : CliArgs) : MainStep :=
  let cfg := applyOverrides env args
  match cfg.host with
  | none => .configError "Error: CPREMOTE_HOST is not set"
  | some host =>
    match cfg.password with
    | none => .configError "Error: CPREMOTE_PASSWORD is not set"
    | some password => .dispatch host password cfg.units args.command

/-- The HTTP requests issued by a whole `main` invocation: none on a
configuration error or a missing subcommand (help text), otherwise those
of the dispatched command. -/
def main_requests (env : EnvConfig) (args : CliArgs) (localData : String) :
    List Request :=
  match main_dispatch env args with
  | .configError _ => []
  | .dispatch host password _ command =>
    match command with
    | none => []
    | some c => command_requests host password localData c

/-- Concrete library instantiation whose `json.loads` parses any body
to the empty JSON object (used to evaluate `info` on concrete
responses). -/
def libObjLoads : PyLib :=
  { loads := fun _ => some (Json.obj []),
    parseListing := fun _ => none,
    now := ⟨2025, 1, 1, 0, 0, 0⟩,
    localtime := fun _ => ⟨2025, 1, 1, 0, 0, 0⟩,
    strftime := fun f _ => f,
    renderNum := fun _ => "" }

/-- Concrete library instantiation whose `json.loads` parses any body to
the JSON string holding that body. -/
def libStrLoads : PyLib :=
  { loads := fun s => some (Json.str s),
    parseListing := fun _ => none,
    now := ⟨2025, 1, 1, 0, 0, 0⟩,
    localtime := fun _ => ⟨2025, 1, 1, 0, 0, 0⟩,
    strftime := fun f _ => f,
    renderNum := fun _ => "" }

/-- Concrete library instantiation whose local time is constant (year
2025) and whose `strftime` returns the format string it was given, so
the chosen format is observable. -/
def libSameYear : PyLib :=
  { loads := fun _ => none,
    parseListing := fun _ => none,
    now := ⟨2025, 1, 1, 0, 0, 0⟩,
    localtime := fun _ => ⟨2025, 1, 1, 0, 0, 0⟩,
    strftime := fun f _ => f,
    renderNum := fun _ => "" }

/-- A string extended with a final '/' ends with '/'. -/
theorem pyEndswith_append_slash (p : String) :
    pyEndswith (p ++ "/") "/" = true := by
  have h : ("/" : String).data = ['/'] := rfl
  simp [pyEndswith, String.data_append, h]

/-- When the path does not already end with '/', `dirSlash` appends
one. -/
theorem dirSlash_no_slash (p : String) (h : pyEndswith p "/" = false) :
    dirSlash p = p ++ "/" := by
  simp [dirSlash, h]

/-- A path already ending with '/' is left unchanged by `dirSlash`. -/
theorem dirSlash_idem_slash (p : String) : dirSlash (p ++ "/") = p ++ "/" := by
  simp [dirSlash, pyEndswith_append_slash]

/-- The first character of an `Unknown ...` message. -/
theorem unknown_head (r : String) : ("Unknown " ++ r).data.head? = some 'U' :=
  rfl

/-- An `Unknown {code}: {body}` message differs from any string not
starting with 'U'. -/
theorem unknown_string_ne (code : Nat) (body m : String)
    (h : m.data.head? ≠ some 'U') :
    "Unknown " ++ toString code ++ ": " ++ body ≠ m := by
  intro he
  apply h
  rw [← he, String.append_assoc, String.append_assoc]
  exact unknown_head _

/-- An `Unknown {code}: {body}` print differs from printing any string
not starting with 'U'. -/
theorem unknown_effect_ne (code : Nat) (body m : String)
    (h : m.data.head? ≠ some 'U') :
    [Effect.print ("Unknown " ++ toString code ++ ": " ++ body)] ≠
      [Effect.print m] := by
  intro he
  simp only [List.cons.injEq, and_true, Effect.print.injEq] at he
  exact unknown_string_ne code body m h he

/-- C1: the uniform 401/403 messages hold for the seven filesystem
operations (get, ls, mkdir, mv, put, rm, rmdir): status 401 prints
exactly "Incorrect password" and status 403 prints exactly
"No CIRCUITPY_WEB_API_PASSWORD set".  The info operations (devices,
diskinfo, version) are NOT covered: they never dispatch on the status
code (see the counterexample). -/
theorem C1_auth_messages (lib : PyLib) (host : String)
    (units : Option String) (dst : Option String) (directory : String)
    (response : Response) :
    (response.status_code = 401 →
      get_handle dst response = [.print "Incorrect password"] ∧
      ls_handle lib host units directory response =
        .ok [.print "Incorrect password"] ∧
      mkdir_handle response = [.print "Incorrect password"] ∧
      mv_handle response = [.print "Incorrect password"] ∧
      put_handle response = [.print "Incorrect password"] ∧
      rm_handle response = [.print "Incorrect password"] ∧
      rmdir_handle response = [.print "Incorrect password"]) ∧
    (response.status_code = 403 →
      get_handle dst response = [.print "No CIRCUITPY_WEB_API_PASSWORD set"] ∧
      ls_handle lib host units directory response =
        .ok [.print "No CIRCUITPY_WEB_API_PASSWORD set"] ∧
      mkdir_handle response = [.print "No CIRCUITPY_WEB_API_PASSWORD set"] ∧
      mv_handle response = [.print "No CIRCUITPY_WEB_API_PASSWORD set"] ∧
      put_handle response = [.print "No CIRCUITPY_WEB_API_PASSWORD set"] ∧
      rm_handle response = [.print "No CIRCUITPY_WEB_API_PASSWORD set"] ∧
      rmdir_handle response = [.print "No CIRCUITPY_WEB_API_PASSWORD set"]) := by
  constructor <;> intro h <;>
    refine ⟨?_, ?_, ?_, ?_, ?_, ?_, ?_⟩ <;>
      simp [get_handle, ls_handle, mkdir_handle, mv_handle, put_handle,
        rm_handle, rmdir_handle, h]

/-- C1 witness: the 401 branch evaluated concretely for `mkdir`. -/
theorem C1_witness :
    mkdir_handle ⟨401, ""⟩ = [Effect.print "Incorrect password"] :=
  (((C1_auth_messages libObjLoads "h" none none "/" ⟨401, ""⟩).1) rfl).2.2.1

/-- C1 counterexample: the claim extends the 401 message to the info
operations, but `info` never inspects the status code: at status 401 it
prints the re-serialised JSON body (here the empty object), not
"Incorrect password". -/
theorem C1_counterexample :
    info_handle libObjLoads ⟨401, ""⟩ = .ok [.print "\x7b\x7d"] ∧
    ("\x7b\x7d" : String) ≠ "Incorrect password" := by
  constructor
  · simp [info_handle, libObjLoads, json_dumps_indent4, json_dumps_at]
  · decide

/-- C2 amended: `ls`, `mkdir` and `rmdir` append a trailing slash when
missing, so for a path `p` without one the request URL is
host + '/fs/' + p + '/', and `ls p` and `ls (p ++ "/")` issue identical
requests; but the destination of `mv` is NOT normalised: it is sent
verbatim as '/fs/' + dst in the X-Destination header (and the `mv` URL
uses the source verbatim). -/
theorem C2_dir_slash (host password p src dst : String)
    (h : pyEndswith p "/" = false) :
    (ls_request host password p).url = host ++ "/fs/" ++ p ++ "/" ∧
    (mkdir_request host password p).url = host ++ "/fs/" ++ p ++ "/" ∧
    (rmdir_request host password p).url = host ++ "/fs/" ++ p ++ "/" ∧
    ls_request host password p = ls_request host password (p ++ "/") ∧
    (mv_request host password src dst).headers =
      [("X-Destination", "/fs/" ++ dst)] ∧
    (mv_request host password src dst).url = host ++ "/fs/" ++ src := by
  refine ⟨?_, ?_, ?_, ?_, rfl, rfl⟩ <;>
    simp [ls_request, mkdir_request, rmdir_request, dirSlash_no_slash p h,
      dirSlash_idem_slash, String.append_assoc]

/-- C2 witness: the `ls` URL evaluated concretely for path "foo". -/
theorem C2_witness :
    (ls_request "http://h" "pw" "foo").url =
      "http://h" ++ "/fs/" ++ "foo" ++ "/" :=
  (C2_dir_slash "http://h" "pw" "foo" "a" "b" (by decide)).1

/-- C2 counterexample: the claim includes the destination of `mv` among
the slash-normalised paths, but for destination "b" the outgoing
X-Destination header value is "/fs/b", without a trailing slash. -/
theorem C2_counterexample :
    (mv_request "http://h" "pw" "a" "b").headers =
      [("X-Destination", "/fs/b")] ∧
    ("/fs/b" : String) ≠ "/fs/b/" := by
  exact ⟨rfl, by decide⟩

/-- C3 amended: the `info` operations never inspect the status code:
for any two statuses and the same body the outcome is identical; when
the body parses as JSON the output is exactly the body re-serialised by
`json.dumps(obj, indent=4)`, and when it does not parse the
`json.loads` exception propagates.  There is no raw-status-echo
branch. -/
theorem C3_info_ignores_status (lib : PyLib) (s s' : Nat) (body : String) :
    info_handle lib ⟨s, body⟩ = info_handle lib ⟨s', body⟩ ∧
    (∀ obj, lib.loads body = some obj →
      info_handle lib ⟨s, body⟩ = .ok [.print (json_dumps_indent4 obj)]) ∧
    (lib.loads body = none →
      info_handle lib ⟨s, body⟩ = .error .jsonDecode) := by
  refine ⟨rfl, ?_, ?_⟩
  · intro obj hobj
    simp [info_handle, hobj]
  · intro hnone
    simp [info_handle, hnone]

/-- C3 witness: the parse-success case evaluated concretely. -/
theorem C3_witness :
    info_handle libStrLoads ⟨500, "x"⟩ =
      .ok [Effect.print (json_dumps_indent4 (Json.str "x"))] :=
  (C3_info_ignores_status libStrLoads 500 200 "x").2.1 (Json.str "x") rfl

/-- C3 counterexample: at status 418 the `info` operations do not print
a raw status echo: with a body parsing to the JSON string "hi" the
output is exactly the pretty-printed body, identical to the output at
status 200. -/
theorem C3_counterexample :
    info_handle libStrLoads ⟨418, "hi"⟩ = .ok [.print "\"hi\""] ∧
    info_handle libStrLoads ⟨418, "hi"⟩ =
      info_handle libStrLoads ⟨200, "hi"⟩ := by
  constructor
  · simp only [info_handle, libStrLoads, json_dumps_indent4, json_dumps_at]
    rfl
  · rfl

/-- C4 amended: transport failures are NOT converted to a printed
outcome anywhere: every network operation issues its request with no
exception handler, so a network-level error raised by the transport
propagates out of the operation unchanged (and no retry occurs).  Only
`repl`, which makes no HTTP call, is unaffected. -/
theorem C4_transport_propagates (lib : PyLib)
    (host password localData : String) (units : Option String)
    (e : TransportError) (cmd : Command) (h : cmd ≠ Command.repl) :
    command_run lib (fun _ => Except.error e) host password units localData
      cmd = .error (.transport e) := by
  cases cmd
  case repl => exact absurd rfl h
  all_goals rfl

/-- C4 witness: a concrete timed-out `rm` invocation propagates the
transport error. -/
theorem C4_witness :
    command_run libObjLoads (fun _ => Except.error TransportError.timedOut)
      "h" "p" none "" (Command.rm "f") =
      .error (.transport .timedOut) :=
  C4_transport_propagates libObjLoads "h" "p" "" none TransportError.timedOut
    (Command.rm "f") (by decide)

/-- C4 counterexample: a connection-refused `get` does not complete with
a printed TransportError message: the run ends with the uncaught
exception, not with any list of printed effects. -/
theorem C4_counterexample :
    command_run libObjLoads (fun _ => Except.error .connectionRefused)
      "h" "p" none "" (Command.get "code.py" none) =
      .error (.transport .connectionRefused) := rfl

/-- C5: the `ls` summary conversion at free=100, total=200,
block_size=512: units `blocks` leaves the raw counts 100 and 200 (as
ints); `b` gives 51200 and 102400 (ints, count times block size); `kb`
gives the floats 50.0 and 100.0 (count times block size divided by
1024 with true division); the unset default also leaves the raw
counts. -/
theorem C5_units_conversion :
    ls_convert (some "blocks") 100 200 512 = (.int 100, .int 200) ∧
    ls_convert (some "b") 100 200 512 = (.int 51200, .int 102400) ∧
    ls_convert (some "kb") 100 200 512 = (.float 50, .float 100) ∧
    ls_convert none 100 200 512 = (.int 100, .int 200) := by
  refine ⟨?_, ?_, ?_, ?_⟩ <;> simp only [ls_convert]
  · rw [if_neg (by decide), if_neg (by decide)]
  · rw [if_pos (by decide)]; norm_num
  · rw [if_neg (by decide), if_pos (by decide)]; norm_num
  · rw [if_neg (by decide), if_neg (by decide)]

/-- C6: the modified column of an `ls` entry uses the strftime format
"%b %d %H:%M" when the local year of `modified_ns` equals the current
local year, and "%b %d  %Y" (two spaces before the year) otherwise. -/
theorem C6_modified_format (lib : PyLib) (modified_ns : Int) :
    ((lib.localtime ((modified_ns : ℚ) / 1000000000)).tm_year =
        lib.now.tm_year →
      entry_modified lib modified_ns =
        lib.strftime "%b %d %H:%M"
          (lib.localtime ((modified_ns : ℚ) / 1000000000))) ∧
    ((lib.localtime ((modified_ns : ℚ) / 1000000000)).tm_year ≠
        lib.now.tm_year →
      entry_modified lib modified_ns =
        lib.strftime "%b %d  %Y"
          (lib.localtime ((modified_ns : ℚ) / 1000000000))) := by
  constructor <;> intro h <;> simp [entry_modified, h]

/-- C6 witness: the same-year branch evaluated with a constant local
clock whose `strftime` returns the chosen format. -/
theorem C6_witness :
    entry_modified libSameYear 0 =
      libSameYear.strftime "%b %d %H:%M"
        (libSameYear.localtime (((0 : Int) : ℚ) / 1000000000)) :=
  (C6_modified_format libSameYear 0).1 rfl

/-- C7: for `get`, any status outside 200/401/403/404 produces the
single message `Unknown {code}: {body}` — containing the literal code
and the raw body — and never one of the documented messages. -/
theorem C7_get_unknown_status (dst : Option String) (response : Response)
    (h200 : response.status_code ≠ 200) (h401 : response.status_code ≠ 401)
    (h403 : response.status_code ≠ 403) (h404 : response.status_code ≠ 404) :
    get_handle dst response =
      [.print ("Unknown " ++ toString response.status_code ++ ": " ++
        response.text)] ∧
    get_handle dst response ≠ [.print "File exists and file returned"] ∧
    get_handle dst response ≠ [.print "Incorrect password"] ∧
    get_handle dst response ≠ [.print "No CIRCUITPY_WEB_API_PASSWORD set"] ∧
    get_handle dst response ≠ [.print "Missing file"] := by
  have hu : get_handle dst response =
      [.print ("Unknown " ++ toString response.status_code ++ ": " ++
        response.text)] := by
    simp [get_handle, h200, h401, h403, h404]
  refine ⟨hu, ?_, ?_, ?_, ?_⟩ <;> rw [hu] <;>
    exact unknown_effect_ne _ _ _ (by decide)

/-- C7 witness: status 418 with body "teapot" evaluated concretely. -/
theorem C7_witness :
    get_handle none ⟨418, "teapot"⟩ =
      [Effect.print ("Unknown " ++ toString (418 : Nat) ++ ": " ++ "teapot")] :=
  (C7_get_unknown_status none ⟨418, "teapot"⟩ (by decide) (by decide)
    (by decide) (by decide)).1

/-- C8: every network command issues exactly one HTTP request; the
request of `ls` carries a 5-second timeout and the request of every
other operation (get, put, mv, rm, rmdir, mkdir, and the info commands)
carries none.  `repl` only opens the browser and is excluded. -/
theorem C8_one_request_timeout (host password localData : String)
    (cmd : Command) (h : cmd ≠ Command.repl) :
    ∃ r : Request, command_requests host password localData cmd = [r] ∧
      r.timeout = (if cmd.isLs then some 5 else none) := by
  cases cmd
  case repl => exact absurd rfl h
  all_goals exact ⟨_, rfl, rfl⟩

/-- C8 witness: the `ls` request evaluated concretely carries the
5-second timeout. -/
theorem C8_witness :
    ∃ r : Request, command_requests "h" "p" "" (Command.ls "lib") = [r] ∧
      r.timeout = (if (Command.ls "lib").isLs then some 5 else none) :=
  C8_one_request_timeout "h" "p" "" (Command.ls "lib") (by decide)

/-- C9: after the CLI flags override the environment values, a missing
host (and otherwise a missing password) makes `main` print the
corresponding error message and return before any network request; and
each flag, when given, wins over the environment value (last writer
wins), while an absent flag leaves the environment value. -/
theorem C9_config_short_circuit (env : EnvConfig) (args : CliArgs)
    (localData : String) :
    ((applyOverrides env args).host = none →
      main_dispatch env args =
        .configError "Error: CPREMOTE_HOST is not set" ∧
      main_requests env args localData = []) ∧
    (∀ h, (applyOverrides env args).host = some h →
      (applyOverrides env args).password = none →
      main_dispatch env args =
        .configError "Error: CPREMOTE_PASSWORD is not set" ∧
      main_requests env args localData = []) ∧
    (∀ h, args.host = some h → (applyOverrides env args).host = some h) ∧
    (∀ p, args.password = some p →
      (applyOverrides env args).password = some p) ∧
    (∀ u, args.units = some u → (applyOverrides env args).units = some u) ∧
    (args.host = none → (applyOverrides env args).host = env.host) ∧
    (args.password = none →
      (applyOverrides env args).password = env.password) := by
  refine ⟨fun hh => ?_, fun h hh hp => ?_, fun h hh => ?_, fun p hp => ?_,
    fun u hu => ?_, fun hh => ?_, fun hp => ?_⟩
  · have hd : main_dispatch env args =
        .configError "Error: CPREMOTE_HOST is not set" := by
      simp only [main_dispatch]
      rw [hh]
    exact ⟨hd, by simp only [main_requests]; rw [hd]⟩
  · have hd : main_dispatch env args =
        .configError "Error: CPREMOTE_PASSWORD is not set" := by
      simp only [main_dispatch]
      rw [hh, hp]
    exact ⟨hd, by simp only [main_requests]; rw [hd]⟩
  · simp [applyOverrides, hh]
  · simp [applyOverrides, hp]
  · simp [applyOverrides, hu]
  · simp [applyOverrides, hh]
  · simp [applyOverrides, hp]

/-- C9 witness: with nothing configured, `main` stops at the host check
and issues no request. -/
theorem C9_witness :
    main_dispatch ⟨none, none, none⟩ ⟨none, none, none, none⟩ =
      .configError "Error: CPREMOTE_HOST is not set" ∧
    main_requests ⟨none, none, none⟩ ⟨none, none, none, none⟩ "" = [] :=
  (C9_config_short_circuit ⟨none, none, none⟩ ⟨none, none, none, none⟩ "").1
    rfl

/-- C10: `put` with the destination omitted defaults it to the source
name: the request is identical to the one with the destination given
explicitly equal to the source, and its URL is host + '/fs/' + src. -/
theorem C10_put_default_dst (host password src data : String) :
    put_request host password src none data =
      put_request host password src (some src) data ∧
    (put_request host password src none data).url = host ++ "/fs/" ++ src :=
  ⟨rfl, rfl⟩

end Cpremote
